import Mathlib

/-!
Shallow embedding of `src/scripts/devbox-ctl/devbox_ctl.py` (nix-devbox),
covering the container registry data model, its mutation primitives
(`add_container`, `update_container`, `remove_container`), validation,
and the lifecycle operations `create`, `destroy` and `rotate_key`.

External effects (podman, 1Password, tailscale) are modelled by oracle
environments recording whether each external step succeeds; registry
mutations are explicit state passing.  Python exceptions are modelled by
`Except`: each command returns its outcome together with the final
registry state (and, where relevant, the list of runtime side effects
performed).
-/

/-- One container record, exactly the fields written by `add_container`
(devbox_ctl.py lines 286-300). -/
structure ContainerRecord where
  name : String
  owner : String
  state : String
  createdAt : String
  lastActivityAt : String
  cpuLimit : Int
  memoryLimit : String
  volumeName : String
  tailscaleHostname : String
  tailscaleIP : Option String
  withSyncthing : Bool
deriving DecidableEq, Repr

/-- The registry document: `{"version": 1, "containers": [...]}`
(devbox_ctl.py line 217). -/
structure Registry where
  version : Int
  containers : List ContainerRecord
deriving DecidableEq, Repr

/-- The empty registry written by `init_registry`. -/
def emptyRegistry : Registry := { version := 1, containers := [] }

/-- `get_container` (lines 253-259): first record whose name matches. -/
def get_container (r : Registry) (name : String) : Option ContainerRecord :=
  r.containers.find? (fun c => c.name == name)

/-- `container_exists` (lines 262-264). -/
def container_exists (r : Registry) (name : String) : Bool :=
  (get_container r name).isSome

/-- The record appended by `add_container` (lines 286-300): state
`"creating"`, volume `{name}-data`, hostname `name`, no tailscale IP. -/
def mkRecord (name owner : String) (cpu : Int) (memory : String)
    (withSyncthing : Bool) (timestamp : String) : ContainerRecord :=
  { name := name
    owner := owner
    state := "creating"
    createdAt := timestamp
    lastActivityAt := timestamp
    cpuLimit := cpu
    memoryLimit := memory
    volumeName := name ++ "-data"
    tailscaleHostname := name
    tailscaleIP := none
    withSyncthing := withSyncthing }

/-- `add_container` (lines 267-305): append one record under the
exclusive lock.  The whole read-modify-write happens while the lock is
held, so concurrent calls serialize; the model therefore treats each
call as one atomic registry transformation. -/
def add_container (r : Registry) (name owner : String) (cpu : Int)
    (memory : String) (withSyncthing : Bool) (timestamp : String) : Registry :=
  { r with containers := r.containers ++ [mkRecord name owner cpu memory withSyncthing timestamp] }

/-- The keyword-argument dictionaries actually passed to
`update_container` in the source (state, tailscaleIP, lastActivityAt;
lines 705, 724, 743, 854-856, 897, 1126), as a record of optional field
updates: `none` means the field is not named in the update. -/
structure Updates where
  state : Option String := none
  tailscaleIP : Option (Option String) := none
  lastActivityAt : Option String := none
deriving DecidableEq, Repr

/-- `container.update(updates)` (line 321): each field named in the
update is overwritten, every other field keeps its value. -/
def applyUpdates (c : ContainerRecord) (u : Updates) : ContainerRecord :=
  { c with
    state := u.state.getD c.state
    tailscaleIP := u.tailscaleIP.getD c.tailscaleIP
    lastActivityAt := u.lastActivityAt.getD c.lastActivityAt }

/-- The loop of `update_container` (lines 319-322): update the first
record whose name matches, then break; no match leaves the list as is. -/
def updateFirst (cs : List ContainerRecord) (name : String) (u : Updates) :
    List ContainerRecord :=
  match cs with
  | [] => []
  | c :: rest =>
    if c.name == name then applyUpdates c u :: rest
    else c :: updateFirst rest name u

/-- `update_container` (lines 308-327): read-modify-write under the
exclusive lock; mutates only the first matching record, raises nothing
when no record matches. -/
def update_container (r : Registry) (name : String) (u : Updates) : Registry :=
  { r with containers := updateFirst r.containers name u }

/-- `remove_container` (lines 330-348): keep every record whose name
differs. -/
def remove_container (r : Registry) (name : String) : Registry :=
  { r with containers := r.containers.filter (fun c => c.name != name) }

/-- `count_user_containers` (lines 351-354). -/
def count_user_containers (r : Registry) (user : String) : Nat :=
  (r.containers.filter (fun c => c.owner == user)).length

/-- `count_all_containers` (lines 357-360). -/
def count_all_containers (r : Registry) : Nat :=
  r.containers.length

/-- The records of a registry carrying a given name. -/
def records_named (r : Registry) (name : String) : List ContainerRecord :=
  r.containers.filter (fun c => c.name == name)

/- ── Validation (lines 148-197) ─────────────────────────────────── -/

/-- Character class `[a-z]`. -/
def isLowerAZ (c : Char) : Bool := 'a' ≤ c && c ≤ 'z'

/-- Character class `[0-9]`. -/
def isDigit09 (c : Char) : Bool := '0' ≤ c && c ≤ '9'

/-- Character class `[a-z0-9-]`. -/
def isNameMid (c : Char) : Bool := isLowerAZ c || isDigit09 c || c == '-'

/-- Character class `[a-z0-9]`. -/
def isNameEnd (c : Char) : Bool := isLowerAZ c || isDigit09 c

/-- The portion of `NAME_PATTERN = ^[a-z][a-z0-9-]{1,61}[a-z0-9]` that
consumes the given characters entirely: one lowercase letter, 1 to 61
middle characters, one closing letter or digit. -/
def coreMatch (l : List Char) : Bool :=
  decide (3 ≤ l.length) && decide (l.length ≤ 63) &&
  (match l.head? with | some c => isLowerAZ c | none => false) &&
  (match l.getLast? with | some c => isNameEnd c | none => false) &&
  (l.drop 1).dropLast.all isNameMid

/-- `NAME_PATTERN.match(name)` (line 166) with Python semantics: the
anchor `$` matches at the end of the string or just before a final
newline, so the pattern also matches a valid core followed by one
trailing `\n`. -/
def nameMatch (l : List Char) : Bool :=
  coreMatch l ||
  (match l.getLast? with
   | some c => c == '\n' && coreMatch l.dropLast
   | none => false)

/-- `"--" in name` (line 174): two adjacent hyphens somewhere. -/
def hasDoubleHyphen : List Char → Bool
  | '-' :: '-' :: _ => true
  | _ :: rest => hasDoubleHyphen rest
  | [] => false

/-- The distinct `ValidationError`s of `validate_container_name`. -/
inductive NameErr
  | tooShort
  | tooLong
  | badFormat
  | doubleHyphen
deriving DecidableEq, Repr

/-- `validate_container_name` (lines 151-178), checks in source order:
length < 3, length > 63, regex mismatch, consecutive hyphens. -/
def validate_container_name (name : String) : Except NameErr Unit :=
  if name.toList.length < 3 then .error .tooShort
  else if name.toList.length > 63 then .error .tooLong
  else if !nameMatch name.toList then .error .badFormat
  else if hasDoubleHyphen name.toList then .error .doubleHyphen
  else .ok ()

/-- The whole of `^\d+[MG]` consuming the characters: one or more
digits then `M` or `G`. -/
def memCore (l : List Char) : Bool :=
  (match l.getLast? with | some c => c == 'M' || c == 'G' | none => false) &&
  !l.dropLast.isEmpty && l.dropLast.all isDigit09

/-- `re.match(r"^\d+[MG]$", memory)` (line 183), again with the Python
`$`-before-final-newline semantics. -/
def memMatch (l : List Char) : Bool :=
  memCore l ||
  (match l.getLast? with
   | some c => c == '\n' && memCore l.dropLast
   | none => false)

/-- `validate_memory` (lines 181-188). -/
def validate_memory (memory : String) : Except Unit Unit :=
  if memMatch memory.toList then .ok () else .error ()

/-- `validate_cpu` (lines 191-197): between 1 and 64. -/
def validate_cpu (cpu : Int) : Except Unit Unit :=
  if cpu < 1 || cpu > 64 then .error () else .ok ()

/-- Name validity as §6 of the spec words it: 3 to 63 characters, only
lowercase letters, digits and hyphens, starting with a letter, ending
with a letter or digit, no consecutive hyphens.  Stated from the spec,
to be compared with `validate_container_name` from the source. -/
def specValidName (name : String) : Bool :=
  decide (3 ≤ name.toList.length) && decide (name.toList.length ≤ 63) &&
  name.toList.all isNameMid &&
  (match name.toList.head? with | some c => isLowerAZ c | none => false) &&
  (match name.toList.getLast? with | some c => isNameEnd c | none => false) &&
  !hasDoubleHyphen name.toList

/- ── Registry document loading (lines 224-236) ──────────────────── -/

/-- A stored registry file: either text that `json.load` rejects, or a
well-formed document with some version number and container list. -/
inductive StoredDoc
  | malformed
  | wellFormed (d : Registry)
deriving DecidableEq, Repr

/-- The only failure `load_registry` can signal: `json.load` raising on
unparseable text. -/
inductive LoadErr
  | jsonDecodeError
deriving DecidableEq, Repr

/-- `load_registry` (lines 224-236): `json.load` under a shared lock and
nothing else — no schema-version check, no field validation; whatever
parses is returned. -/
def load_registry : StoredDoc → Except LoadErr Registry
  | .malformed => .error .jsonDecodeError
  | .wellFormed d => .ok d

/- ── create (lines 651-766) ─────────────────────────────────────── -/

/-- Oracle for the external steps of `create`: whether `check_podman`
succeeds, whether the 1Password auth-key retrieval succeeds, whether the
volume exists-check/create step raises, whether `podman run` succeeds,
what `wait_for_tailscale` returns, and whether the registry update step
raises. -/
structure CreateEnv where
  podmanOk : Bool
  secretOk : Bool
  volumeStepOk : Bool
  runOk : Bool
  tailscaleResult : Option String
  updateOk : Bool
deriving DecidableEq, Repr

/-- The error outcomes of `create`, in the order the source can raise
them; `volumeError`, `runError` and `updateError` are the exceptions of
the inner try-block, re-raised after the rollback `remove_container`. -/
inductive CreateErr
  | invalidName (e : NameErr)
  | invalidCpu
  | invalidMemory
  | alreadyExists
  | userLimitReached
  | globalLimitReached
  | podmanMissing
  | secretError
  | volumeError
  | runError
  | updateError
deriving DecidableEq, Repr

/-- Errors of the inner try-block of `create`, i.e. raised after the
record was inserted into the registry. -/
def isPostInsertErr : Except CreateErr Unit → Bool
  | .error .volumeError => true
  | .error .runError => true
  | .error .updateError => true
  | _ => false

/-- The inner try-block of `create` (lines 697-757), entered right
after `add_container` inserted the record into the registry `r1`: the
volume exists-check/create step, then either the no-start update to
`stopped`, or `podman run` followed by the tailscale wait and the update
to `running`; every exception of the block triggers the rollback
`remove_container` and is re-raised (lines 751-757). -/
def create_after_insert (env : CreateEnv) (noStart : Bool) (r1 : Registry)
    (name : String) : Except CreateErr Unit × Registry :=
  if env.volumeStepOk = false then (.error .volumeError, remove_container r1 name)
  else if noStart then
    if env.updateOk = false then (.error .updateError, remove_container r1 name)
    else (.ok (), update_container r1 name { state := some "stopped" })
  else if env.runOk = false then (.error .runError, remove_container r1 name)
  else
    match env.tailscaleResult with
    | some ip =>
      if env.updateOk = false then (.error .updateError, remove_container r1 name)
      else
        (.ok (), update_container r1 name
          { state := some "running", tailscaleIP := some (some ip) })
    | none =>
      if env.updateOk = false then (.error .updateError, remove_container r1 name)
      else (.ok (), update_container r1 name { state := some "running" })

/-- `create` (lines 651-766), in source order: validate name, cpu,
memory; reject an existing name; per-user quota, global quota; podman
check; auth-key retrieval; `add_container`; then the inner try-block
(volume step, then either the no-start update to `stopped` or
`podman run` followed by the tailscale wait and the update to
`running`), whose every exception triggers `remove_container` and is
re-raised (lines 751-757). -/
def create (maxPerUser maxGlobal : Nat) (r : Registry) (env : CreateEnv)
    (name owner : String) (cpu : Int) (memory : String)
    (noStart withSyncthing : Bool) (ts : String) :
    Except CreateErr Unit × Registry :=
  match validate_container_name name with
  | .error e => (.error (.invalidName e), r)
  | .ok _ =>
  match validate_cpu cpu with
  | .error _ => (.error .invalidCpu, r)
  | .ok _ =>
  match validate_memory memory with
  | .error _ => (.error .invalidMemory, r)
  | .ok _ =>
  if container_exists r name then (.error .alreadyExists, r)
  else if maxPerUser ≤ count_user_containers r owner then (.error .userLimitReached, r)
  else if maxGlobal ≤ count_all_containers r then (.error .globalLimitReached, r)
  else if env.podmanOk = false then (.error .podmanMissing, r)
  else if env.secretOk = false then (.error .secretError, r)
  else
    create_after_insert env noStart
      (add_container r name owner cpu memory withSyncthing ts) name

/- ── destroy (lines 914-971) ────────────────────────────────────── -/

/-- A runtime side effect performed by `destroy`. -/
inductive DestroyEff
  | stopContainer (n : String)
  | removeContainer (n : String)
  | removeVolume (v : String)
deriving DecidableEq, Repr

/-- Oracle for `destroy`: the calling user, admin status, the
confirmation prompt answer, podman availability, the runtime state and
existence of the container, and whether the stop/remove commands
succeed. -/
structure DestroyEnv where
  user : String
  admin : Bool
  confirm : Bool
  podmanOk : Bool
  runtimeState : Option String
  runtimeExists : Bool
  stopOk : Bool
  removeOk : Bool
deriving DecidableEq, Repr

/-- The error outcomes of `destroy`. -/
inductive DestroyErr
  | notFound
  | permissionDenied
  | podmanMissing
  | stopFailed
  | removeFailed
deriving DecidableEq, Repr

/-- `destroy` (lines 914-971), in source order: registry lookup
(NotFound), ownership check, confirmation prompt (aborting returns
normally with nothing done), podman check, best-effort stop if the
runtime reports running, container removal if it exists, volume removal
unless kept (`check=False`, never raises), then `remove_container`.
Returns the outcome, the final registry, and the runtime effects
performed, with `true` meaning the container was actually destroyed. -/
def destroy (r : Registry) (env : DestroyEnv) (name : String)
    (force keepVolume : Bool) :
    Except DestroyErr Bool × Registry × List DestroyEff :=
  match get_container r name with
  | none => (.error .notFound, r, [])
  | some c =>
    if c.owner ≠ env.user ∧ env.admin = false then (.error .permissionDenied, r, [])
    else if force = false ∧ env.confirm = false then (.ok false, r, [])
    else if env.podmanOk = false then (.error .podmanMissing, r, [])
    else
      let stopEffs := if env.runtimeState = some "running" then [DestroyEff.stopContainer name] else []
      if env.runtimeState = some "running" ∧ env.stopOk = false then
        (.error .stopFailed, r, stopEffs)
      else
        let rmEffs := if env.runtimeExists then [DestroyEff.removeContainer name] else []
        if env.runtimeExists ∧ env.removeOk = false then
          (.error .removeFailed, r, stopEffs ++ rmEffs)
        else
          let volEffs := if keepVolume then [] else [DestroyEff.removeVolume (name ++ "-data")]
          (.ok true, remove_container r name, stopEffs ++ rmEffs ++ volEffs)

/- ── rotate-key (lines 1067-1134) ───────────────────────────────── -/

/-- A runtime side effect performed by `rotate_key`: the
`tailscale logout` exec (which uses `check=False` and never raises) and
the `tailscale up` re-authentication attempt. -/
inductive RotateEff
  | logout (n : String)
  | reauth (n : String)
deriving DecidableEq, Repr

/-- Oracle for `rotate_key`: the calling user, admin status, podman
availability, whether the auth-key retrieval succeeds and whether the
`tailscale up` re-authentication succeeds. -/
structure RotateEnv where
  user : String
  admin : Bool
  podmanOk : Bool
  secretOk : Bool
  reauthOk : Bool
deriving DecidableEq, Repr

/-- The error outcomes of `rotate_key`. -/
inductive RotateErr
  | notFound
  | permissionDenied
  | notRunning
  | podmanMissing
  | secretError
  | reauthFailed
deriving DecidableEq, Repr

/-- `rotate_key` (lines 1067-1134), in source order: registry lookup,
ownership check, the requirement `state == "running"`, podman check,
auth-key retrieval, the logout-then-up re-authentication (failure of
`tailscale up` raises after both execs, leaving the registry untouched),
and only on success `update_container(name, lastActivityAt=ts)`. -/
def rotate_key (r : Registry) (env : RotateEnv) (name ts : String) :
    Except RotateErr Unit × Registry × List RotateEff :=
  match get_container r name with
  | none => (.error .notFound, r, [])
  | some c =>
    if c.owner ≠ env.user ∧ env.admin = false then (.error .permissionDenied, r, [])
    else if c.state ≠ "running" then (.error .notRunning, r, [])
    else if env.podmanOk = false then (.error .podmanMissing, r, [])
    else if env.secretOk = false then (.error .secretError, r, [])
    else if env.reauthOk = false then
      (.error .reauthFailed, r, [RotateEff.logout name, RotateEff.reauth name])
    else
      (.ok (), update_container r name { lastActivityAt := some ts },
       [RotateEff.logout name, RotateEff.reauth name])

/- ── Serialized concurrent mutation (C2) ────────────────────────── -/

/-- The parameters of one `add_container` mutation. -/
structure AddOp where
  name : String
  owner : String
  cpu : Int
  memory : String
  withSyncthing : Bool
  timestamp : String
deriving DecidableEq, Repr

/-- M concurrent `add_container` calls: the exclusive lock held across
each call's whole read-modify-write serializes them, so any concurrent
execution is equivalent to running the M mutations in some sequential
order — modelled as a fold over an arbitrary ordering of the ops. -/
def runAdds (r : Registry) (ops : List AddOp) : Registry :=
  ops.foldl
    (fun acc op => add_container acc op.name op.owner op.cpu op.memory op.withSyncthing op.timestamp)
    r

deriving instance DecidableEq for Except

/- ── Helper lemmas ──────────────────────────────────────────────── -/

theorem find?_eq_some_split {α : Type} (p : α → Bool) :
    ∀ (l : List α) (c : α), l.find? p = some c →
      ∃ pre post, l = pre ++ c :: post ∧ ∀ x ∈ pre, p x = false := by
  intro l
  induction l with
  | nil => intro c h; simp [List.find?] at h
  | cons a rest ih =>
    intro c h
    by_cases hp : p a = true
    · rw [List.find?_cons_of_pos _ hp] at h
      cases h
      exact ⟨[], rest, rfl, by intro x hx; cases hx⟩
    · have hp' : p a = false := by
        cases hapa : p a
        · rfl
        · exact absurd hapa hp
      rw [List.find?_cons_of_neg _ hp] at h
      obtain ⟨pre, post, heq, hall⟩ := ih c h
      refine ⟨a :: pre, post, by rw [heq]; rfl, ?_⟩
      intro x hx
      cases hx with
      | head => exact hp'
      | tail _ hmem => exact hall x hmem

theorem updateFirst_no_match (name : String) (u : Updates) :
    ∀ cs : List ContainerRecord, (∀ c ∈ cs, (c.name == name) = false) →
      updateFirst cs name u = cs := by
  intro cs
  induction cs with
  | nil => intro _; rfl
  | cons c rest ih =>
    intro h
    have hc := h c (by simp)
    simp only [updateFirst, hc, Bool.false_eq_true, if_false]
    rw [ih (fun x hx => h x (by simp [hx]))]

theorem updateFirst_split (name : String) (u : Updates) :
    ∀ (pre : List ContainerRecord) (c : ContainerRecord) (post : List ContainerRecord),
      (∀ x ∈ pre, (x.name == name) = false) → (c.name == name) = true →
      updateFirst (pre ++ c :: post) name u = pre ++ applyUpdates c u :: post := by
  intro pre
  induction pre with
  | nil =>
    intro c post _ hc
    simp only [List.nil_append, updateFirst, hc, if_true]
  | cons a rest ih =>
    intro c post h hc
    have ha := h a (by simp)
    simp only [List.cons_append, updateFirst, ha, Bool.false_eq_true, if_false]
    rw [List.append_eq, ih c post (fun x hx => h x (by simp [hx])) hc]

theorem records_named_remove (r : Registry) (name : String) :
    records_named (remove_container r name) name = [] := by
  simp only [records_named, remove_container]
  induction r.containers with
  | nil => rfl
  | cons c cs ih =>
    by_cases h : c.name = name
    · simp only [List.filter_cons, h, bne_self_eq_false, if_false]
      exact ih
    · have hbne : (c.name != name) = true := by simp [bne, h]
      have hbeq : (c.name == name) = false := by simp [h]
      simp only [List.filter_cons, hbne, if_true, hbeq, Bool.false_eq_true, if_false]
      exact ih

theorem runAdds_names (ops : List AddOp) :
    ∀ r : Registry, (runAdds r ops).containers.map (fun c => c.name)
      = r.containers.map (fun c => c.name) ++ ops.map (fun o => o.name) := by
  induction ops with
  | nil => intro r; simp [runAdds]
  | cons op rest ih =>
    intro r
    have hstep : runAdds r (op :: rest)
        = runAdds (add_container r op.name op.owner op.cpu op.memory op.withSyncthing op.timestamp) rest := rfl
    rw [hstep, ih]
    simp [add_container, mkRecord]

/- ── Claims ─────────────────────────────────────────────────────── -/

/-- Claim C3, counterexample: a stored document whose schema version is
2 — a version the reader does not understand — is returned as a registry
by `load_registry` instead of failing, refuting the claim that every
such document is rejected with a corruption error. -/
theorem load_registry_returns_unknown_schema_version :
    load_registry (StoredDoc.wellFormed ⟨2, []⟩) = .ok ⟨2, []⟩ := rfl

/-- Claim C3, amended: `load_registry` fails (with the JSON decode
error) exactly when the stored content does not parse; it performs no
schema-version check, so any well-formed document — whatever its
version field — is returned as a registry. -/
theorem load_registry_fails_only_on_parse_error (d : Registry) :
    load_registry (StoredDoc.wellFormed d) = .ok d ∧
    load_registry StoredDoc.malformed = .error .jsonDecodeError :=
  ⟨rfl, rfl⟩

/-- Claim C4: refuted — `validate_container_name` accepts the
four-character string `"abc\n"`, which contains a newline and does not
end in a letter or digit, because Python's `$` anchor also matches just
before a trailing newline; the spec's validity condition rejects it. -/
theorem validate_container_name_accepts_trailing_newline :
    validate_container_name "abc\n" = .ok () ∧ specValidName "abc\n" = false :=
  ⟨by decide, by decide⟩

/-- Claim C7: when no registry record with the given name exists,
`destroy` fails with NotFound, leaves the registry unchanged and
performs no runtime side effect, for every environment and flag
combination. -/
theorem destroy_not_found_no_effects (r : Registry) (env : DestroyEnv) (name : String)
    (force keepVolume : Bool) (h : get_container r name = none) :
    destroy r env name force keepVolume = (.error .notFound, r, []) := by
  simp [destroy, h]

/-- Witness for C7 at a concrete input: destroying a name absent from
the empty registry. -/
theorem destroy_not_found_no_effects_witness :
    destroy emptyRegistry ⟨"alice", false, true, true, none, false, true, true⟩ "abc" true false
      = (.error .notFound, emptyRegistry, []) :=
  destroy_not_found_no_effects emptyRegistry
    ⟨"alice", false, true, true, none, false, true, true⟩ "abc" true false rfl

/-- Claim C9: `update_container` on a name matching no record raises
nothing (it is a total function in the model) and returns the registry
unchanged. -/
theorem update_container_missing_name_noop (r : Registry) (name : String) (u : Updates)
    (h : ∀ c ∈ r.containers, ¬(c.name = name)) :
    update_container r name u = r := by
  cases r with
  | mk v cs =>
    have h' : ∀ c ∈ cs, (c.name == name) = false := by
      intro c hc
      simpa using h c hc
    simp only [update_container]
    rw [updateFirst_no_match name u cs h']

/-- Witness for C9 at a concrete input: updating a missing name over a
one-record registry changes nothing. -/
theorem update_container_missing_name_noop_witness :
    update_container
        ⟨1, [⟨"xyz", "alice", "stopped", "T", "T", 2, "4G", "xyz-data", "xyz", none, false⟩]⟩
        "abc" ⟨some "running", none, none⟩
      = ⟨1, [⟨"xyz", "alice", "stopped", "T", "T", 2, "4G", "xyz-data", "xyz", none, false⟩]⟩ :=
  update_container_missing_name_noop
    ⟨1, [⟨"xyz", "alice", "stopped", "T", "T", 2, "4G", "xyz-data", "xyz", none, false⟩]⟩
    "abc" ⟨some "running", none, none⟩ (by decide)

/-- Claim C2: M mutations each appending one uniquely-named record
(serialized in lock-acquisition order, in any order) on the initially
empty registry yield exactly M records with pairwise distinct names —
no mutation is lost. -/
theorem runAdds_no_lost_updates (ops : List AddOp)
    (h : (ops.map (fun o => o.name)).Nodup) :
    (runAdds emptyRegistry ops).containers.length = ops.length ∧
    ((runAdds emptyRegistry ops).containers.map (fun c => c.name)).Nodup := by
  have hn := runAdds_names ops emptyRegistry
  have hlen : (runAdds emptyRegistry ops).containers.length = ops.length := by
    have hl := congrArg List.length hn
    simpa [emptyRegistry] using hl
  refine ⟨hlen, ?_⟩
  rw [hn]
  simpa [emptyRegistry] using h

/-- Witness for C2 at a concrete input: two uniquely-named mutations
leave exactly two distinct records. -/
theorem runAdds_no_lost_updates_witness :
    (runAdds emptyRegistry
        [⟨"aaa", "alice", 2, "4G", false, "T"⟩, ⟨"bbb", "bob", 1, "1G", true, "T"⟩]).containers.length
      = ([⟨"aaa", "alice", 2, "4G", false, "T"⟩, ⟨"bbb", "bob", 1, "1G", true, "T"⟩] : List AddOp).length ∧
    ((runAdds emptyRegistry
        [⟨"aaa", "alice", 2, "4G", false, "T"⟩, ⟨"bbb", "bob", 1, "1G", true, "T"⟩]).containers.map
        (fun c => c.name)).Nodup :=
  runAdds_no_lost_updates
    [⟨"aaa", "alice", 2, "4G", false, "T"⟩, ⟨"bbb", "bob", 1, "1G", true, "T"⟩] (by decide)

/-- Claim C10: when some record matches the name, `update_container`
splits the registry around the first match (everything before it does
not match), rewrites only that record, keeps the insertion order, the
schema version, every other record, and — within the matched record —
every field not named in the updates; fields named in the updates take
the given values. -/
theorem update_container_first_match_frame (r : Registry) (name : String) (u : Updates)
    (c : ContainerRecord) (h : get_container r name = some c) :
    ∃ pre post,
      r.containers = pre ++ c :: post ∧
      (∀ x ∈ pre, ¬(x.name = name)) ∧
      (update_container r name u).version = r.version ∧
      (update_container r name u).containers = pre ++ applyUpdates c u :: post ∧
      (applyUpdates c u).name = c.name ∧
      (applyUpdates c u).owner = c.owner ∧
      (applyUpdates c u).createdAt = c.createdAt ∧
      (applyUpdates c u).cpuLimit = c.cpuLimit ∧
      (applyUpdates c u).memoryLimit = c.memoryLimit ∧
      (applyUpdates c u).volumeName = c.volumeName ∧
      (applyUpdates c u).tailscaleHostname = c.tailscaleHostname ∧
      (applyUpdates c u).withSyncthing = c.withSyncthing ∧
      (u.state = none → (applyUpdates c u).state = c.state) ∧
      (∀ v, u.state = some v → (applyUpdates c u).state = v) ∧
      (u.tailscaleIP = none → (applyUpdates c u).tailscaleIP = c.tailscaleIP) ∧
      (∀ v, u.tailscaleIP = some v → (applyUpdates c u).tailscaleIP = v) ∧
      (u.lastActivityAt = none → (applyUpdates c u).lastActivityAt = c.lastActivityAt) ∧
      (∀ v, u.lastActivityAt = some v → (applyUpdates c u).lastActivityAt = v) := by
  have h0 : r.containers.find? (fun x => x.name == name) = some c := h
  have hc : (c.name == name) = true := @List.find?_some _ _ c _ h0
  obtain ⟨pre, post, heq, hall⟩ := find?_eq_some_split _ r.containers c h0
  refine ⟨pre, post, heq, ?_, rfl, ?_, rfl, rfl, rfl, rfl, rfl, rfl, rfl, rfl,
    ?_, ?_, ?_, ?_, ?_, ?_⟩
  · intro x hx
    simpa using hall x hx
  · simp only [update_container]
    rw [heq, updateFirst_split name u pre c post hall hc]
  · intro hs; simp [applyUpdates, hs]
  · intro v hv; simp [applyUpdates, hv]
  · intro hs; simp [applyUpdates, hs]
  · intro v hv; simp [applyUpdates, hv]
  · intro hs; simp [applyUpdates, hs]
  · intro v hv; simp [applyUpdates, hv]

/-- Witness for C10 at a concrete input: a one-record registry, an
update naming only the state field. -/
theorem update_container_first_match_frame_witness :
    ∃ pre post,
      (⟨1, [⟨"abc", "alice", "creating", "T", "T", 2, "4G", "abc-data", "abc", none, false⟩]⟩ : Registry).containers
        = pre ++ (⟨"abc", "alice", "creating", "T", "T", 2, "4G", "abc-data", "abc", none, false⟩ : ContainerRecord) :: post ∧
      (∀ x ∈ pre, ¬(x.name = "abc")) ∧
      (update_container ⟨1, [⟨"abc", "alice", "creating", "T", "T", 2, "4G", "abc-data", "abc", none, false⟩]⟩
          "abc" ⟨some "stopped", none, none⟩).version
        = (⟨1, [⟨"abc", "alice", "creating", "T", "T", 2, "4G", "abc-data", "abc", none, false⟩]⟩ : Registry).version ∧
      (update_container ⟨1, [⟨"abc", "alice", "creating", "T", "T", 2, "4G", "abc-data", "abc", none, false⟩]⟩
          "abc" ⟨some "stopped", none, none⟩).containers
        = pre ++ applyUpdates ⟨"abc", "alice", "creating", "T", "T", 2, "4G", "abc-data", "abc", none, false⟩
            ⟨some "stopped", none, none⟩ :: post ∧
      (applyUpdates ⟨"abc", "alice", "creating", "T", "T", 2, "4G", "abc-data", "abc", none, false⟩
          ⟨some "stopped", none, none⟩).name
        = (⟨"abc", "alice", "creating", "T", "T", 2, "4G", "abc-data", "abc", none, false⟩ : ContainerRecord).name ∧
      (applyUpdates ⟨"abc", "alice", "creating", "T", "T", 2, "4G", "abc-data", "abc", none, false⟩
          ⟨some "stopped", none, none⟩).owner
        = (⟨"abc", "alice", "creating", "T", "T", 2, "4G", "abc-data", "abc", none, false⟩ : ContainerRecord).owner ∧
      (applyUpdates ⟨"abc", "alice", "creating", "T", "T", 2, "4G", "abc-data", "abc", none, false⟩
          ⟨some "stopped", none, none⟩).createdAt
        = (⟨"abc", "alice", "creating", "T", "T", 2, "4G", "abc-data", "abc", none, false⟩ : ContainerRecord).createdAt ∧
      (applyUpdates ⟨"abc", "alice", "creating", "T", "T", 2, "4G", "abc-data", "abc", none, false⟩
          ⟨some "stopped", none, none⟩).cpuLimit
        = (⟨"abc", "alice", "creating", "T", "T", 2, "4G", "abc-data", "abc", none, false⟩ : ContainerRecord).cpuLimit ∧
      (applyUpdates ⟨"abc", "alice", "creating", "T", "T", 2, "4G", "abc-data", "abc", none, false⟩
          ⟨some "stopped", none, none⟩).memoryLimit
        = (⟨"abc", "alice", "creating", "T", "T", 2, "4G", "abc-data", "abc", none, false⟩ : ContainerRecord).memoryLimit ∧
      (applyUpdates ⟨"abc", "alice", "creating", "T", "T", 2, "4G", "abc-data", "abc", none, false⟩
          ⟨some "stopped", none, none⟩).volumeName
        = (⟨"abc", "alice", "creating", "T", "T", 2, "4G", "abc-data", "abc", none, false⟩ : ContainerRecord).volumeName ∧
      (applyUpdates ⟨"abc", "alice", "creating", "T", "T", 2, "4G", "abc-data", "abc", none, false⟩
          ⟨some "stopped", none, none⟩).tailscaleHostname
        = (⟨"abc", "alice", "creating", "T", "T", 2, "4G", "abc-data", "abc", none, false⟩ : ContainerRecord).tailscaleHostname ∧
      (applyUpdates ⟨"abc", "alice", "creating", "T", "T", 2, "4G", "abc-data", "abc", none, false⟩
          ⟨some "stopped", none, none⟩).withSyncthing
        = (⟨"abc", "alice", "creating", "T", "T", 2, "4G", "abc-data", "abc", none, false⟩ : ContainerRecord).withSyncthing ∧
      ((⟨some "stopped", none, none⟩ : Updates).state = none →
        (applyUpdates ⟨"abc", "alice", "creating", "T", "T", 2, "4G", "abc-data", "abc", none, false⟩
            ⟨some "stopped", none, none⟩).state
          = (⟨"abc", "alice", "creating", "T", "T", 2, "4G", "abc-data", "abc", none, false⟩ : ContainerRecord).state) ∧
      (∀ v, (⟨some "stopped", none, none⟩ : Updates).state = some v →
        (applyUpdates ⟨"abc", "alice", "creating", "T", "T", 2, "4G", "abc-data", "abc", none, false⟩
            ⟨some "stopped", none, none⟩).state = v) ∧
      ((⟨some "stopped", none, none⟩ : Updates).tailscaleIP = none →
        (applyUpdates ⟨"abc", "alice", "creating", "T", "T", 2, "4G", "abc-data", "abc", none, false⟩
            ⟨some "stopped", none, none⟩).tailscaleIP
          = (⟨"abc", "alice", "creating", "T", "T", 2, "4G", "abc-data", "abc", none, false⟩ : ContainerRecord).tailscaleIP) ∧
      (∀ v, (⟨some "stopped", none, none⟩ : Updates).tailscaleIP = some v →
        (applyUpdates ⟨"abc", "alice", "creating", "T", "T", 2, "4G", "abc-data", "abc", none, false⟩
            ⟨some "stopped", none, none⟩).tailscaleIP = v) ∧
      ((⟨some "stopped", none, none⟩ : Updates).lastActivityAt = none →
        (applyUpdates ⟨"abc", "alice", "creating", "T", "T", 2, "4G", "abc-data", "abc", none, false⟩
            ⟨some "stopped", none, none⟩).lastActivityAt
          = (⟨"abc", "alice", "creating", "T", "T", 2, "4G", "abc-data", "abc", none, false⟩ : ContainerRecord).lastActivityAt) ∧
      (∀ v, (⟨some "stopped", none, none⟩ : Updates).lastActivityAt = some v →
        (applyUpdates ⟨"abc", "alice", "creating", "T", "T", 2, "4G", "abc-data", "abc", none, false⟩
            ⟨some "stopped", none, none⟩).lastActivityAt = v) :=
  update_container_first_match_frame
    ⟨1, [⟨"abc", "alice", "creating", "T", "T", 2, "4G", "abc-data", "abc", none, false⟩]⟩
    "abc" ⟨some "stopped", none, none⟩
    ⟨"abc", "alice", "creating", "T", "T", 2, "4G", "abc-data", "abc", none, false⟩ rfl

/-- Claim C8: `rotate_key` requires the record to be running, failing
before any side effect otherwise; a failed re-authentication leaves the
registry record entirely unchanged; on success only `lastActivityAt` of
the matched record is rewritten, everything else preserved. -/
theorem rotate_key_no_partial_update (r : Registry) (env : RotateEnv) (name ts : String)
    (c : ContainerRecord) (h : get_container r name = some c)
    (hperm : c.owner = env.user ∨ env.admin = true) :
    (c.state ≠ "running" → rotate_key r env name ts = (.error .notRunning, r, [])) ∧
    (c.state = "running" → env.podmanOk = true → env.secretOk = true → env.reauthOk = false →
      rotate_key r env name ts
        = (.error .reauthFailed, r, [RotateEff.logout name, RotateEff.reauth name])) ∧
    (c.state = "running" → env.podmanOk = true → env.secretOk = true → env.reauthOk = true →
      (rotate_key r env name ts).1 = .ok () ∧
      ∃ pre post, r.containers = pre ++ c :: post ∧ (∀ x ∈ pre, ¬(x.name = name)) ∧
        (rotate_key r env name ts).2.1
          = ⟨r.version, pre ++ { c with lastActivityAt := ts } :: post⟩) := by
  have hpermF : ¬(c.owner ≠ env.user ∧ env.admin = false) := by
    intro hcon
    rcases hperm with h1 | h2
    · exact hcon.1 h1
    · rw [h2] at hcon
      exact Bool.noConfusion hcon.2
  refine ⟨?_, ?_, ?_⟩
  · intro hs
    simp [rotate_key, h, hpermF, hs]
  · intro hs hp hsec hre
    simp [rotate_key, h, hpermF, hs, hp, hsec, hre]
  · intro hs hp hsec hre
    have hres : rotate_key r env name ts
        = (.ok (), update_container r name { lastActivityAt := some ts },
           [RotateEff.logout name, RotateEff.reauth name]) := by
      simp [rotate_key, h, hpermF, hs, hp, hsec, hre]
    have h0 : r.containers.find? (fun x => x.name == name) = some c := h
    have hc : (c.name == name) = true := @List.find?_some _ _ c _ h0
    obtain ⟨pre, post, heq, hall⟩ := find?_eq_some_split _ r.containers c h0
    refine ⟨by rw [hres], pre, post, heq, ?_, ?_⟩
    · intro x hx
      simpa using hall x hx
    · rw [hres]
      simp only [update_container]
      rw [heq, updateFirst_split _ _ pre c post hall hc]
      simp [applyUpdates]

/-- Witness for C8 at a concrete input: a running record whose
re-authentication fails is left untouched. -/
theorem rotate_key_no_partial_update_witness :
    rotate_key ⟨1, [⟨"abc", "alice", "running", "T", "T", 2, "4G", "abc-data", "abc", none, false⟩]⟩
        ⟨"alice", false, true, true, false⟩ "abc" "T2"
      = (.error .reauthFailed,
         ⟨1, [⟨"abc", "alice", "running", "T", "T", 2, "4G", "abc-data", "abc", none, false⟩]⟩,
         [RotateEff.logout "abc", RotateEff.reauth "abc"]) :=
  (rotate_key_no_partial_update
      ⟨1, [⟨"abc", "alice", "running", "T", "T", 2, "4G", "abc-data", "abc", none, false⟩]⟩
      ⟨"alice", false, true, true, false⟩ "abc" "T2"
      ⟨"abc", "alice", "running", "T", "T", 2, "4G", "abc-data", "abc", none, false⟩
      rfl (Or.inl rfl)).2.1 rfl rfl rfl rfl

/-- Case shape of the inner try-block: it either fails with a
post-insert error and the rollback applied, or succeeds with some update
applied to the inserted registry. -/
theorem create_after_insert_shape (env : CreateEnv) (noStart : Bool) (r1 : Registry)
    (name : String) :
    (isPostInsertErr (create_after_insert env noStart r1 name).1 = true
      ∧ (create_after_insert env noStart r1 name).2 = remove_container r1 name) ∨
    ((create_after_insert env noStart r1 name).1 = .ok ()
      ∧ ∃ u, (create_after_insert env noStart r1 name).2 = update_container r1 name u) := by
  unfold create_after_insert
  repeat' split
  all_goals
    first
      | exact Or.inl ⟨rfl, rfl⟩
      | exact Or.inr ⟨rfl, _, rfl⟩

/-- Case shape of `create`: every run either fails before the record
insertion with the registry untouched, fails after it with the rollback
`remove_container` applied to the inserted registry, or succeeds with
some update applied to the inserted registry. -/
theorem create_pair_shape (maxPerUser maxGlobal : Nat) (r : Registry) (env : CreateEnv)
    (name owner : String) (cpu : Int) (memory : String)
    (noStart withSyncthing : Bool) (ts : String) :
    (isPostInsertErr (create maxPerUser maxGlobal r env name owner cpu memory noStart withSyncthing ts).1 = false
      ∧ (create maxPerUser maxGlobal r env name owner cpu memory noStart withSyncthing ts).2 = r) ∨
    (isPostInsertErr (create maxPerUser maxGlobal r env name owner cpu memory noStart withSyncthing ts).1 = true
      ∧ (create maxPerUser maxGlobal r env name owner cpu memory noStart withSyncthing ts).2
          = remove_container (add_container r name owner cpu memory withSyncthing ts) name) ∨
    ((create maxPerUser maxGlobal r env name owner cpu memory noStart withSyncthing ts).1 = .ok ()
      ∧ ∃ u, (create maxPerUser maxGlobal r env name owner cpu memory noStart withSyncthing ts).2
          = update_container (add_container r name owner cpu memory withSyncthing ts) name u) := by
  unfold create
  repeat' split
  all_goals
    first
      | exact Or.inl ⟨rfl, rfl⟩
      | exact Or.inr (create_after_insert_shape env noStart
          (add_container r name owner cpu memory withSyncthing ts) name)

/-- Claim C1: whenever `create` ends in an error raised after the record
insertion (volume creation, container launch, or the post-launch
registry update failing), the rollback removes the just-inserted record
before the error is re-raised, so the final registry holds zero records
with that name. -/
theorem create_rollback_on_post_insert_failure (maxPerUser maxGlobal : Nat)
    (r : Registry) (env : CreateEnv) (name owner : String) (cpu : Int) (memory : String)
    (noStart withSyncthing : Bool) (ts : String)
    (h : isPostInsertErr (create maxPerUser maxGlobal r env name owner cpu memory noStart withSyncthing ts).1 = true) :
    records_named (create maxPerUser maxGlobal r env name owner cpu memory noStart withSyncthing ts).2 name
      = [] := by
  rcases create_pair_shape maxPerUser maxGlobal r env name owner cpu memory noStart withSyncthing ts with
    ⟨hf, _⟩ | ⟨_, h2⟩ | ⟨hok, _⟩
  · rw [hf] at h
    exact Bool.noConfusion h
  · rw [h2]
    exact records_named_remove _ name
  · rw [hok] at h
    exact Bool.noConfusion h

/-- Witness for C1 at a concrete input: a valid fresh creation whose
container launch fails leaves zero records for the name. -/
theorem create_rollback_on_post_insert_failure_witness :
    records_named (create 5 7 emptyRegistry ⟨true, true, true, false, none, true⟩
        "abc" "alice" 2 "4G" false false "T").2 "abc" = [] :=
  create_rollback_on_post_insert_failure 5 7 emptyRegistry ⟨true, true, true, false, none, true⟩
    "abc" "alice" 2 "4G" false false "T" (by decide)

/-- Claim C5: with valid inputs and a fresh name, an owner already at or
above `MAX_PER_USER` containers makes `create` fail with the per-owner
limit error and leave the registry unchanged (no record inserted); an
owner at `MAX_PER_USER - 1` passes the check and (with the global quota
open and all external steps succeeding, no-start) is admitted. -/
theorem create_per_owner_quota (maxPerUser maxGlobal : Nat) (r : Registry) (env : CreateEnv)
    (name owner : String) (cpu : Int) (memory : String)
    (noStart withSyncthing : Bool) (ts : String)
    (hname : validate_container_name name = .ok ())
    (hcpu : validate_cpu cpu = .ok ())
    (hmem : validate_memory memory = .ok ())
    (hfresh : get_container r name = none) :
    (maxPerUser ≤ count_user_containers r owner →
      create maxPerUser maxGlobal r env name owner cpu memory noStart withSyncthing ts
        = (.error .userLimitReached, r)) ∧
    (count_user_containers r owner = maxPerUser - 1 → 1 ≤ maxPerUser →
      count_all_containers r < maxGlobal →
      env.podmanOk = true → env.secretOk = true → env.volumeStepOk = true →
      env.updateOk = true → noStart = true →
      (create maxPerUser maxGlobal r env name owner cpu memory noStart withSyncthing ts).1
        = .ok ()) := by
  have hex : container_exists r name = false := by
    simp [container_exists, hfresh]
  constructor
  · intro hq
    simp [create, hname, hcpu, hmem, hex, hq]
  · intro hcnt hmx hglob hp hsec hv hu hns
    have hqf : ¬(maxPerUser ≤ count_user_containers r owner) := by omega
    have hgf : ¬(maxGlobal ≤ count_all_containers r) := by omega
    simp [create, create_after_insert, hname, hcpu, hmem, hex, hqf, hgf, hp, hsec, hv, hu, hns]

/-- Witness for C5 at concrete inputs: with a one-container limit, an
owner owning one container is refused with the registry unchanged, and
the same owner with zero containers is admitted. -/
theorem create_per_owner_quota_witness :
    (create 1 7 ⟨1, [⟨"aaa", "alice", "stopped", "T", "T", 2, "4G", "aaa-data", "aaa", none, false⟩]⟩
        ⟨true, true, true, true, none, true⟩ "abc" "alice" 2 "4G" true false "T"
      = (.error .userLimitReached,
         ⟨1, [⟨"aaa", "alice", "stopped", "T", "T", 2, "4G", "aaa-data", "aaa", none, false⟩]⟩)) ∧
    ((create 1 7 emptyRegistry ⟨true, true, true, true, none, true⟩
        "abc" "alice" 2 "4G" true false "T").1 = .ok ()) :=
  ⟨(create_per_owner_quota 1 7
      ⟨1, [⟨"aaa", "alice", "stopped", "T", "T", 2, "4G", "aaa-data", "aaa", none, false⟩]⟩
      ⟨true, true, true, true, none, true⟩ "abc" "alice" 2 "4G" true false "T"
      (by decide) (by decide) (by decide) (by decide)).1 (by decide),
   (create_per_owner_quota 1 7 emptyRegistry ⟨true, true, true, true, none, true⟩
      "abc" "alice" 2 "4G" true false "T"
      (by decide) (by decide) (by decide) rfl).2
     (by decide) (by decide) (by decide) rfl rfl rfl rfl rfl⟩

/-- Claim C6: a successful no-start `create` on a fresh valid name
returns success and leaves exactly one record for the name, with state
`"stopped"`, volume `{name}-data`, network hostname `name`, the given
owner, cpu and memory limits, and no network address. -/
theorem create_no_start_result (maxPerUser maxGlobal : Nat) (r : Registry) (env : CreateEnv)
    (name owner : String) (cpu : Int) (memory : String) (withSyncthing : Bool) (ts : String)
    (hname : validate_container_name name = .ok ())
    (hcpu : validate_cpu cpu = .ok ())
    (hmem : validate_memory memory = .ok ())
    (hfresh : get_container r name = none)
    (huser : count_user_containers r owner < maxPerUser)
    (hglob : count_all_containers r < maxGlobal)
    (hp : env.podmanOk = true) (hsec : env.secretOk = true)
    (hv : env.volumeStepOk = true) (hu : env.updateOk = true) :
    (create maxPerUser maxGlobal r env name owner cpu memory true withSyncthing ts).1 = .ok () ∧
    records_named (create maxPerUser maxGlobal r env name owner cpu memory true withSyncthing ts).2 name
      = [{ name := name, owner := owner, state := "stopped", createdAt := ts,
           lastActivityAt := ts, cpuLimit := cpu, memoryLimit := memory,
           volumeName := name ++ "-data", tailscaleHostname := name,
           tailscaleIP := none, withSyncthing := withSyncthing }] := by
  have hex : container_exists r name = false := by
    simp [container_exists, hfresh]
  have hqf : ¬(maxPerUser ≤ count_user_containers r owner) := by omega
  have hgf : ¬(maxGlobal ≤ count_all_containers r) := by omega
  have hres : create maxPerUser maxGlobal r env name owner cpu memory true withSyncthing ts
      = (.ok (), update_container (add_container r name owner cpu memory withSyncthing ts) name
          { state := some "stopped" }) := by
    simp [create, create_after_insert, hname, hcpu, hmem, hex, hqf, hgf, hp, hsec, hv, hu]
  rw [hres]
  refine ⟨rfl, ?_⟩
  have hnomatch : ∀ x ∈ r.containers, (x.name == name) = false := by
    intro x hx
    have hxx := List.find?_eq_none.mp hfresh x hx
    cases hxy : (x.name == name)
    · rfl
    · exact absurd hxy hxx
  have hmk : ((mkRecord name owner cpu memory withSyncthing ts).name == name) = true := by
    simp [mkRecord]
  have hupd : updateFirst (r.containers ++ [mkRecord name owner cpu memory withSyncthing ts]) name
      { state := some "stopped" }
      = r.containers
        ++ [applyUpdates (mkRecord name owner cpu memory withSyncthing ts) { state := some "stopped" }] :=
    updateFirst_split name _ r.containers _ [] hnomatch hmk
  simp only [records_named, update_container, add_container]
  rw [hupd, List.filter_append]
  have hfil : r.containers.filter (fun c => c.name == name) = [] := by
    apply List.filter_eq_nil_iff.mpr
    intro a ha
    simp [hnomatch a ha]
  rw [hfil]
  simp [applyUpdates, mkRecord]

/-- Witness for C6 at a concrete input: the spec's end-to-end no-start
scenario, `demo-env` with cpu 2 and memory 4G. -/
theorem create_no_start_result_witness :
    (create 5 7 emptyRegistry ⟨true, true, true, true, none, true⟩
        "demo-env" "alice" 2 "4G" true false "T").1 = .ok () ∧
    records_named (create 5 7 emptyRegistry ⟨true, true, true, true, none, true⟩
        "demo-env" "alice" 2 "4G" true false "T").2 "demo-env"
      = [{ name := "demo-env", owner := "alice", state := "stopped", createdAt := "T",
           lastActivityAt := "T", cpuLimit := 2, memoryLimit := "4G",
           volumeName := "demo-env" ++ "-data", tailscaleHostname := "demo-env",
           tailscaleIP := none, withSyncthing := false }] :=
  create_no_start_result 5 7 emptyRegistry ⟨true, true, true, true, none, true⟩
    "demo-env" "alice" 2 "4G" false "T"
    (by decide) (by decide) (by decide) rfl (by decide) (by decide) rfl rfl rfl rfl
